import Mathlib

/-!
Shallow embedding of the Quality-in-Healthcare-portfolio repository
(Statistical Process Control): the synthetic data generator
(`generate_data.py`) and the metrics engine (`Dashboard.py`,
`statistical_process_control.py`).

Numbers held in pandas columns are modelled as real numbers; the pure
integer/rational computations of `generate_data.py` are modelled over
`ℕ`/`ℤ`/`ℚ` so that concrete instances evaluate by `decide`.  Random
draws (`np.random.normal`, `gamma`, `binomial`, `multinomial`,
`randint`, `uniform`) are oracle parameters: a theorem quantifying over
them covers every draw, with the distribution's support stated as a
hypothesis where the claim needs it (e.g. a multinomial sample sums to
its first argument).  Python's `round(x, k)` rounds half to even; it is
modelled by `roundTiesEven` below.  Pandas propagates NaN, which is
modelled with `Option` where the source can produce it
(`replace(0, np.nan)` in `Dashboard.calculate_oee_metrics`).
-/

namespace SPCPortfolio

/-- One production record row, with the fields the metrics engine reads
(`Date`, `Production_Volume`, `Defects_Total`, `Downtime_Total`,
`Average_Cycle_Time`).  The date is a day count. -/
structure Row where
  date : ℤ
  productionVolume : ℝ
  defectsTotal : ℝ
  downtimeTotal : ℝ
  averageCycleTime : ℝ

/-- Mean of a list of reals, as `pandas.Series.mean` computes it
(sum divided by count). -/
noncomputable def listMean (xs : List ℝ) : ℝ := xs.sum / xs.length

/-- Sample standard deviation as `pandas.Series.std` computes it
(`ddof = 1`: the sum of squared deviations is divided by `n - 1`). -/
noncomputable def listStd (xs : List ℝ) : ℝ :=
  Real.sqrt (((xs.map (fun x => (x - listMean xs) ^ 2)).sum) / (xs.length - 1))

/-- Minutes per shift used by both OEE implementations
(`scheduled_time = 420`). -/
def scheduledTime : ℝ := 420

/-- Optimal cycle time as both OEE implementations derive it from the
table: `df['Average_Cycle_Time'].mean() - df['Average_Cycle_Time'].std()`. -/
noncomputable def optimalCycleTime (df : List Row) : ℝ :=
  listMean (df.map (·.averageCycleTime)) - listStd (df.map (·.averageCycleTime))

/-- Derived OEE columns of one row in `Dashboard.calculate_oee_metrics`.
`Quality` and `OEE` are `Option`-valued because the source replaces a
zero production volume with NaN before dividing. -/
structure OeeRow where
  availability : ℝ
  performance : ℝ
  quality : Option ℝ
  oee : Option ℝ

/-- Per-row computation of `Dashboard.calculate_oee_metrics`, given the
table-level `optimal_cycle_time`:
`availability = (scheduled_time - Downtime_Total) / scheduled_time`,
`performance = optimal_cycle_time * Production_Volume / scheduled_time`,
`quality = (Production_Volume - Defects_Total) / Production_Volume`
with a zero volume replaced by NaN (`none`), and
`OEE = availability * performance * quality`. -/
noncomputable def oeeMetricsRow (oct : ℝ) (r : Row) : OeeRow :=
  let availability := (scheduledTime - r.downtimeTotal) / scheduledTime
  let performance := oct * r.productionVolume / scheduledTime
  let quality : Option ℝ :=
    if r.productionVolume = 0 then none
    else some ((r.productionVolume - r.defectsTotal) / r.productionVolume)
  { availability := availability
    performance := performance
    quality := quality
    oee := quality.map (fun q => availability * performance * q) }

/-- `Dashboard.calculate_oee_metrics`: appends the Availability,
Performance, Quality and OEE columns row by row. -/
noncomputable def calculate_oee_metrics (df : List Row) : List OeeRow :=
  df.map (oeeMetricsRow (optimalCycleTime df))

/-- Per-row OEE value of `statistical_process_control.calculate_oee_metrics`
(`df['OEE'] = availability * performance * quality`, no NaN guard on the
quality denominator). -/
noncomputable def oeeRowSpc (oct : ℝ) (r : Row) : ℝ :=
  ((scheduledTime - r.downtimeTotal) / scheduledTime) *
    (oct * r.productionVolume / scheduledTime) *
    ((r.productionVolume - r.defectsTotal) / r.productionVolume)

/-- Centre line of `p_chart`:
`p_bar = df['Defects_Total'].sum() / df['Production_Volume'].sum()`. -/
noncomputable def pBar (df : List Row) : ℝ :=
  (df.map (·.defectsTotal)).sum / (df.map (·.productionVolume)).sum

/-- Per-row control limits of `p_chart`:
`UCL = p_bar + 3 * sqrt(p_bar * (1 - p_bar) / Production_Volume)` and
`LCL = p_bar - 3 * sqrt(p_bar * (1 - p_bar) / Production_Volume)`. -/
noncomputable def pChartLimits (df : List Row) (r : Row) : ℝ × ℝ :=
  (pBar df + 3 * Real.sqrt (pBar df * (1 - pBar df) / r.productionVolume),
   pBar df - 3 * Real.sqrt (pBar df * (1 - pBar df) / r.productionVolume))

/-- Moving ranges of a series: the absolute first differences
`df[col].diff().abs()`, without the leading NaN that pandas drops when
averaging (`n - 1` values for an `n`-row series). -/
noncomputable def movingRanges (xs : List ℝ) : List ℝ :=
  (xs.zip xs.tail).map (fun p => |p.2 - p.1|)

/-- Individuals control limits of `imr_chart_cycle_time`:
`UCL_I = mean + 3 * (MR_bar / 1.128)` and
`LCL_I = mean - 3 * (MR_bar / 1.128)` where `MR_bar` is the mean of the
moving ranges of `Average_Cycle_Time`. -/
noncomputable def imrChartCycleTime (df : List Row) : ℝ × ℝ :=
  let xs := df.map (·.averageCycleTime)
  let m := listMean xs
  let mrBar := listMean (movingRanges xs)
  (m + 3 * (mrBar / 1.128), m - 3 * (mrBar / 1.128))

/-- Individuals control limits of `imr_chart_downtime`, the same I-MR
formulas applied to `Downtime_Total`. -/
noncomputable def imrChartDowntime (df : List Row) : ℝ × ℝ :=
  let xs := df.map (·.downtimeTotal)
  let m := listMean xs
  let mrBar := listMean (movingRanges xs)
  (m + 3 * (mrBar / 1.128), m - 3 * (mrBar / 1.128))

/-- `Dashboard.simulate_new_row`: copies the last row, advances the date
by one day, perturbs volume/defects/downtime by the integer draws
`randint(-15, 15)` / `randint(-3, 3)` / `randint(-20, 20)` clamped at 0,
perturbs the cycle time by the `uniform(-0.15, 0.15)` draw clamped at
0.1, appends the new row and drops the oldest row. -/
noncomputable def simulate_new_row (df : List Row) (dVol dDef dDown : ℤ) (dCycle : ℝ) :
    List Row :=
  match df.getLast? with
  | none => df.drop 1
  | some last =>
      let newRow : Row :=
        { date := last.date + 1
          productionVolume := max 0 (last.productionVolume + (dVol : ℝ))
          defectsTotal := max 0 (last.defectsTotal + (dDef : ℝ))
          downtimeTotal := max 0 (last.downtimeTotal + (dDown : ℝ))
          averageCycleTime := max 0.1 (last.averageCycleTime + dCycle) }
      (df ++ [newRow]).drop 1

/-- Python's `int()` applied to a rational: truncation towards zero. -/
def pyTruncQ (x : ℚ) : ℤ := if 0 ≤ x then ⌊x⌋ else ⌈x⌉

/-- `generate_production_volume`: `normalDraw` is the oracle for the
`np.random.normal(effective_capacity, effective_capacity * 0.05)` draw.
The actual production is the truncated draw, clamped to
`[0, int(base_capacity * 1.2)]`. -/
def generate_production_volume (baseCapacity : ℤ)
    (efficiencyFactor downtimeTotal normalDraw : ℚ) : ℤ :=
  let availableTime := 480 - downtimeTotal
  let effectiveCapacity :=
    (baseCapacity : ℚ) * (availableTime / 480) * efficiencyFactor
  let _ := effectiveCapacity
  let actualProduction := pyTruncQ normalDraw
  max 0 (min actualProduction (pyTruncQ ((baseCapacity : ℚ) * 1.2)))

/-- Python's `round` to the nearest integer with ties going to the even
neighbour (banker's rounding), over `ℚ`. -/
def roundTiesEvenQ (x : ℚ) : ℤ :=
  if x - ⌊x⌋ = 1 / 2 then (if Even ⌊x⌋ then ⌊x⌋ else ⌊x⌋ + 1) else round x

/-- Python's `round(x, 1)`: round to one decimal place, ties to even. -/
def pyRound1 (x : ℚ) : ℚ := (roundTiesEvenQ (x * 10) : ℚ) / 10

/-- Downtime minutes by cause returned by `generate_downtime`. -/
structure DowntimeCauses where
  maintenance : ℚ
  setupChangeover : ℚ
  breakdown : ℚ
  materialShortage : ℚ
  operatorAbsence : ℚ

/-- Sum of the five per-cause downtime figures. -/
def DowntimeCauses.total (c : DowntimeCauses) : ℚ :=
  c.maintenance + c.setupChangeover + c.breakdown + c.materialShortage +
    c.operatorAbsence

/-- `generate_downtime`: `hasDowntime` is the oracle for the 80% branch
`random.random() < 0.8`, `gammaDraw` for the
`np.random.gamma(2.0, effective_downtime / 2)` draw, and
`(w0, ..., w4)` for the `np.random.multinomial(100, cause_weights)`
draw.  In the downtime branch the total is the gamma draw clamped to
`[0, 5 * mean_downtime_minutes]` and each cause gets
`round(total * w_i / 100, 1)` minutes; otherwise everything is 0. -/
def generate_downtime (meanDowntimeMinutes reliabilityFactor : ℚ)
    (hasDowntime : Bool) (gammaDraw : ℚ) (w0 w1 w2 w3 w4 : ℕ) :
    DowntimeCauses × ℚ :=
  let effectiveDowntime := meanDowntimeMinutes * (1 - reliabilityFactor)
  let _ := effectiveDowntime
  if hasDowntime then
    let totalDowntime := min (max gammaDraw 0) (meanDowntimeMinutes * 5)
    ({ maintenance := pyRound1 (totalDowntime * (w0 : ℚ) / 100)
       setupChangeover := pyRound1 (totalDowntime * (w1 : ℚ) / 100)
       breakdown := pyRound1 (totalDowntime * (w2 : ℚ) / 100)
       materialShortage := pyRound1 (totalDowntime * (w3 : ℚ) / 100)
       operatorAbsence := pyRound1 (totalDowntime * (w4 : ℚ) / 100) },
     totalDowntime)
  else
    ({ maintenance := 0, setupChangeover := 0, breakdown := 0,
       materialShortage := 0, operatorAbsence := 0 }, 0)

/-- Python's `round` to the nearest integer with ties going to the even
neighbour, over `ℝ`. -/
noncomputable def roundTiesEvenR (x : ℝ) : ℤ :=
  if x - ⌊x⌋ = 1 / 2 then (if Even ⌊x⌋ then ⌊x⌋ else ⌊x⌋ + 1) else round x

/-- Python's `round(x, 2)` over the reals. -/
noncomputable def pyRound2 (x : ℝ) : ℝ := (roundTiesEvenR (x * 100) : ℝ) / 100

/-- Python's `round(x, 4)` over the reals. -/
noncomputable def pyRound4 (x : ℝ) : ℝ :=
  (roundTiesEvenR (x * 10000) : ℝ) / 10000

/-- Python's `int()` applied to a real: truncation towards zero. -/
noncomputable def pyTruncR (x : ℝ) : ℤ := if 0 ≤ x then ⌊x⌋ else ⌈x⌉

/-- Defect rate as `calculate_quality_metrics` computes it:
`defects_total / production_volume if production_volume > 0 else 0`. -/
noncomputable def defect_rate (defectsTotal productionVolume : ℝ) : ℝ :=
  if 0 < productionVolume then defectsTotal / productionVolume else 0

/-- Quality metrics dictionary returned by `calculate_quality_metrics`. -/
structure QualityMetrics where
  fpy : ℝ
  dpmo : ℤ
  rty : ℝ
  sigmaLevel : ℝ

/-- `calculate_quality_metrics`: FPY = 1 - rate (rounded to 4 places),
DPMO = rate * 10^6 (truncated to an int), RTY = (1 - rate)^1.5 (rounded
to 4 places) and the sigma level is 6.0 at rate 0, 0.0 at rate ≥ 1 and
otherwise `0.8406 - 3.42 * log10(rate)` clamped to [0, 6], rounded to 2
places. -/
noncomputable def calculate_quality_metrics
    (defectsTotal productionVolume : ℝ) : QualityMetrics :=
  let rate := defect_rate defectsTotal productionVolume
  { fpy := pyRound4 (1 - rate)
    dpmo := pyTruncR (rate * 1000000)
    rty := pyRound4 ((1 - rate) ^ (1.5 : ℝ))
    sigmaLevel := pyRound2 (if rate = 0 then 6 else if 1 ≤ rate then 0
      else max 0 (min 6 (0.8406 - 3.42 * Real.logb 10 rate))) }

/-- Defect counts by type returned by `generate_defects`. -/
structure DefectCounts where
  dimensional : ℕ
  surface : ℕ
  assembly : ℕ
  material : ℕ
  other : ℕ

/-- Sum of the five defect counts. -/
def DefectCounts.total (c : DefectCounts) : ℕ :=
  c.dimensional + c.surface + c.assembly + c.material + c.other

/-- `generate_defects`: the binomial draw
`np.random.binomial(production_volume, effective_defect_rate)` is the
oracle `binomDraw`, and the multinomial draw
`np.random.multinomial(total_defects, defect_weights)` is the oracle
`(d0, d1, d2, d3, d4)`.  When the total is positive the counts are the
multinomial sample; otherwise all five stay 0. -/
def generate_defects (productionVolume : ℕ) (baseDefectRate qualityFactor : ℚ)
    (binomDraw : ℕ) (d0 d1 d2 d3 d4 : ℕ) : DefectCounts × ℕ :=
  let effectiveDefectRate := baseDefectRate * (1 - qualityFactor)
  let _ := (productionVolume, effectiveDefectRate)
  let totalDefects := binomDraw
  if 0 < totalDefects then
    ({ dimensional := d0, surface := d1, assembly := d2, material := d3,
       other := d4 }, totalDefects)
  else
    ({ dimensional := 0, surface := 0, assembly := 0, material := 0,
       other := 0 }, totalDefects)

end SPCPortfolio

namespace SPCPortfolio

/-- A sample production record used to instantiate theorems. -/
def rowA : Row :=
  { date := 0, productionVolume := 100, defectsTotal := 5,
    downtimeTotal := 30, averageCycleTime := 2 }

/-- A second sample production record. -/
def rowB : Row :=
  { date := 1, productionVolume := 200, defectsTotal := 8,
    downtimeTotal := 50, averageCycleTime := 3 }

/-- C1: on every table, for every row whose production volume is nonzero,
the OEE column equals exactly the product of the Availability,
Performance and Quality values derived from that same table, with
Availability = (scheduled - Downtime_Total)/scheduled,
Performance = (optimal_cycle_time * Production_Volume)/scheduled and
Quality = (Production_Volume - Defects_Total)/Production_Volume; the
same product identity holds for the per-row OEE of
`statistical_process_control.calculate_oee_metrics`. -/
theorem oee_eq_product_of_factors (df : List Row) (i : ℕ) (hi : i < df.length)
    (hv : df[i].productionVolume ≠ 0) :
    (calculate_oee_metrics df)[i]? =
      some
        { availability := (scheduledTime - df[i].downtimeTotal) / scheduledTime
          performance :=
            optimalCycleTime df * df[i].productionVolume / scheduledTime
          quality :=
            some ((df[i].productionVolume - df[i].defectsTotal) /
              df[i].productionVolume)
          oee :=
            some (((scheduledTime - df[i].downtimeTotal) / scheduledTime) *
              (optimalCycleTime df * df[i].productionVolume / scheduledTime) *
              ((df[i].productionVolume - df[i].defectsTotal) /
                df[i].productionVolume)) } ∧
    oeeRowSpc (optimalCycleTime df) df[i] =
      ((scheduledTime - df[i].downtimeTotal) / scheduledTime) *
        (optimalCycleTime df * df[i].productionVolume / scheduledTime) *
        ((df[i].productionVolume - df[i].defectsTotal) /
          df[i].productionVolume) := by
  refine ⟨?_, rfl⟩
  simp only [calculate_oee_metrics, List.getElem?_map,
    List.getElem?_eq_getElem hi, Option.map_some, oeeMetricsRow,
    if_neg hv, Option.map]

/-- Witness for C1 on a one-row table with volume 100. -/
theorem oee_eq_product_of_factors_witness :
    ([rowA][0].productionVolume ≠ 0) ∧
    ((calculate_oee_metrics [rowA])[0]? =
      some
        { availability := (scheduledTime - [rowA][0].downtimeTotal) /
            scheduledTime
          performance :=
            optimalCycleTime [rowA] * [rowA][0].productionVolume /
              scheduledTime
          quality :=
            some (([rowA][0].productionVolume - [rowA][0].defectsTotal) /
              [rowA][0].productionVolume)
          oee :=
            some (((scheduledTime - [rowA][0].downtimeTotal) /
                scheduledTime) *
              (optimalCycleTime [rowA] * [rowA][0].productionVolume /
                scheduledTime) *
              (([rowA][0].productionVolume - [rowA][0].defectsTotal) /
                [rowA][0].productionVolume)) } ∧
    oeeRowSpc (optimalCycleTime [rowA]) [rowA][0] =
      ((scheduledTime - [rowA][0].downtimeTotal) / scheduledTime) *
        (optimalCycleTime [rowA] * [rowA][0].productionVolume /
          scheduledTime) *
        (([rowA][0].productionVolume - [rowA][0].defectsTotal) /
          [rowA][0].productionVolume)) :=
  ⟨by norm_num [rowA],
   oee_eq_product_of_factors [rowA] 0 (by decide) (by norm_num [rowA])⟩

/-- C10: on every non-empty table, `simulate_new_row` keeps the number of
rows (one row appended, the oldest dropped), leaves the carried-over
rows unchanged, and the appended row — derived from the previous last
row — has Production_Volume ≥ 0, Defects_Total ≥ 0, Downtime_Total ≥ 0
and Average_Cycle_Time ≥ 0.1. -/
theorem simulate_new_row_spec (df : List Row) (dVol dDef dDown : ℤ)
    (dCycle : ℝ) (h : df ≠ []) :
    (simulate_new_row df dVol dDef dDown dCycle).length = df.length ∧
    ∃ last newRow,
      df.getLast? = some last ∧
      newRow =
        { date := last.date + 1
          productionVolume := max 0 (last.productionVolume + (dVol : ℝ))
          defectsTotal := max 0 (last.defectsTotal + (dDef : ℝ))
          downtimeTotal := max 0 (last.downtimeTotal + (dDown : ℝ))
          averageCycleTime := max 0.1 (last.averageCycleTime + dCycle) } ∧
      simulate_new_row df dVol dDef dDown dCycle = df.drop 1 ++ [newRow] ∧
      0 ≤ newRow.productionVolume ∧ 0 ≤ newRow.defectsTotal ∧
      0 ≤ newRow.downtimeTotal ∧ 0.1 ≤ newRow.averageCycleTime := by
  obtain ⟨last, hlast⟩ := Option.isSome_iff_exists.mp
    (List.getLast?_isSome.mpr h)
  have hlen : 1 ≤ df.length := List.length_pos.mpr h
  constructor
  · simp [simulate_new_row, hlast]
  · refine ⟨last, _, hlast, rfl, ?_, le_max_left _ _, le_max_left _ _,
      le_max_left _ _, le_max_left _ _⟩
    simp only [simulate_new_row, hlast]
    exact List.drop_append_of_le_length hlen

/-- Witness for C10 on a one-row table. -/
theorem simulate_new_row_spec_witness :
    ([rowA] ≠ []) ∧
    ((simulate_new_row [rowA] (-9) 2 5 (1/20)).length = [rowA].length ∧
    ∃ last newRow,
      [rowA].getLast? = some last ∧
      newRow =
        { date := last.date + 1
          productionVolume := max 0 (last.productionVolume + ((-9 : ℤ) : ℝ))
          defectsTotal := max 0 (last.defectsTotal + ((2 : ℤ) : ℝ))
          downtimeTotal := max 0 (last.downtimeTotal + ((5 : ℤ) : ℝ))
          averageCycleTime := max 0.1 (last.averageCycleTime + 1/20) } ∧
      simulate_new_row [rowA] (-9) 2 5 (1/20) =
        [rowA].drop 1 ++ [newRow] ∧
      0 ≤ newRow.productionVolume ∧ 0 ≤ newRow.defectsTotal ∧
      0 ≤ newRow.downtimeTotal ∧ 0.1 ≤ newRow.averageCycleTime) :=
  ⟨by simp, simulate_new_row_spec [rowA] (-9) 2 5 (1/20) (by simp)⟩

/-- A production record with few units and several defects, as the
rolling simulation can reach (volume drifts down, defects drift up). -/
def rowC : Row :=
  { date := 0, productionVolume := 10, defectsTotal := 5,
    downtimeTotal := 20, averageCycleTime := 2 }

/-- The row `simulate_new_row` appends after `rowC` under the draws
`(-9, 2, 5, 0)`: volume 1, defects 7. -/
def rowC1 : Row :=
  { date := 1, productionVolume := 1, defectsTotal := 7,
    downtimeTotal := 25, averageCycleTime := 2 }

/-- C2 counterexample: `simulate_new_row` adjusts `Defects_Total` and
`Production_Volume` independently, so it reaches a row with volume 1 and
7 defects; the metrics engine then derives Quality = -6, violating
0 ≤ Quality on a row with positive volume. -/
theorem quality_unit_interval_counterexample :
    simulate_new_row [rowC] (-9) 2 5 0 = [rowC1] ∧
    0 < rowC1.productionVolume ∧
    (oeeMetricsRow (optimalCycleTime [rowC1]) rowC1).quality =
      some (-6) ∧
    ¬ (0 ≤ (-6 : ℝ)) := by
  refine ⟨?_, by norm_num [rowC1], ?_, by norm_num⟩
  · simp only [simulate_new_row, List.getLast?_singleton]
    norm_num [rowC, rowC1, Row.mk.injEq, max_def]
  · have hne : rowC1.productionVolume ≠ 0 := by norm_num [rowC1]
    simp only [oeeMetricsRow, if_neg hne, Option.map_some, Option.some.injEq]
    norm_num [rowC1]

/-- C2 amended: for every row whose production volume is positive and
whose defect count lies between 0 and the production volume, the derived
Quality value satisfies 0 ≤ Quality ≤ 1.  `simulate_new_row` guarantees
Defects_Total ≥ 0 (hence Quality ≤ 1 would need Defects_Total ≤ volume,
which it does not enforce), so the extra hypothesis is necessary. -/
theorem quality_unit_interval_amended (oct : ℝ) (r : Row)
    (hv : 0 < r.productionVolume) (h0 : 0 ≤ r.defectsTotal)
    (hle : r.defectsTotal ≤ r.productionVolume) :
    (oeeMetricsRow oct r).quality =
      some ((r.productionVolume - r.defectsTotal) / r.productionVolume) ∧
    0 ≤ (r.productionVolume - r.defectsTotal) / r.productionVolume ∧
    (r.productionVolume - r.defectsTotal) / r.productionVolume ≤ 1 := by
  refine ⟨?_, ?_, ?_⟩
  · simp [oeeMetricsRow, ne_of_gt hv]
  · exact div_nonneg (by linarith) hv.le
  · rw [div_le_one hv]; linarith

/-- Witness for the amended C2 on a row with volume 100 and 5 defects. -/
theorem quality_unit_interval_amended_witness :
    (0 < rowA.productionVolume ∧ 0 ≤ rowA.defectsTotal ∧
      rowA.defectsTotal ≤ rowA.productionVolume) ∧
    ((oeeMetricsRow 1 rowA).quality =
      some ((rowA.productionVolume - rowA.defectsTotal) /
        rowA.productionVolume) ∧
    0 ≤ (rowA.productionVolume - rowA.defectsTotal) /
        rowA.productionVolume ∧
    (rowA.productionVolume - rowA.defectsTotal) /
        rowA.productionVolume ≤ 1) :=
  ⟨⟨by norm_num [rowA], by norm_num [rowA], by norm_num [rowA]⟩,
   quality_unit_interval_amended 1 rowA (by norm_num [rowA])
     (by norm_num [rowA]) (by norm_num [rowA])⟩

/-- Rounding to the nearest integer (ties to even) moves a rational by
at most one half. -/
theorem abs_roundTiesEvenQ_sub (y : ℚ) :
    |(roundTiesEvenQ y : ℚ) - y| ≤ 1 / 2 := by
  unfold roundTiesEvenQ
  split_ifs with h1 h2
  · rw [abs_sub_comm, abs_of_nonneg (by linarith [Int.floor_le y])]
    linarith [h1]
  · have hcast : ((⌊y⌋ + 1 : ℤ) : ℚ) - y = 1 / 2 := by
      push_cast
      linarith [h1]
    rw [hcast, abs_of_nonneg (by norm_num : (0 : ℚ) ≤ 1 / 2)]
  · rw [abs_sub_comm]
    exact abs_sub_round y

/-- Rounding to one decimal place moves a rational by at most 1/20. -/
theorem abs_pyRound1_sub (x : ℚ) : |pyRound1 x - x| ≤ 1 / 20 := by
  have h := abs_roundTiesEvenQ_sub (x * 10)
  have hrw : pyRound1 x - x = ((roundTiesEvenQ (x * 10) : ℚ) - x * 10) / 10 := by
    unfold pyRound1
    ring
  rw [hrw, abs_div, abs_of_nonneg (by norm_num : (0 : ℚ) ≤ 10)]
  linarith

/-- Evaluation rule for one-decimal rounding away from a tie: if
`10 * x` lies strictly within one half of the integer `z`, then
`round(x, 1) = z / 10`. -/
theorem pyRound1_eq (x : ℚ) (z : ℤ) (hl : (z : ℚ) - 1 / 2 < x * 10)
    (hr : x * 10 < (z : ℚ) + 1 / 2) : pyRound1 x = (z : ℚ) / 10 := by
  have notie : x * 10 - (⌊x * 10⌋ : ℚ) ≠ 1 / 2 := by
    intro h
    have hfl : (⌊x * 10⌋ : ℚ) ≤ x * 10 := Int.floor_le _
    have hfu : x * 10 < ⌊x * 10⌋ + 1 := Int.lt_floor_add_one _
    have i1 : (⌊x * 10⌋ : ℚ) < z := by linarith
    have i2 : (z : ℚ) < ⌊x * 10⌋ + 1 := by linarith
    have j1 : ⌊x * 10⌋ < z := by exact_mod_cast i1
    have j2 : (z : ℚ) < ((⌊x * 10⌋ + 1 : ℤ) : ℚ) := by push_cast; linarith
    have j3 : z < ⌊x * 10⌋ + 1 := by exact_mod_cast j2
    omega
  have hround : ⌊x * 10 + 1 / 2⌋ = z :=
    Int.floor_eq_iff.mpr ⟨by linarith, by linarith⟩
  unfold pyRound1 roundTiesEvenQ
  rw [if_neg notie, round_eq, hround]

/-- C3 counterexample: with the multinomial sample (34, 22, 20, 14, 10)
— a valid draw, it sums to 100 — and a clamped gamma total of 1 minute,
the five per-cause minutes of `generate_downtime` sum to 0.9, not to the
returned `Downtime_Total` of 1: the one-decimal rounding of each cause
breaks exact summation. -/
theorem generate_downtime_sum_counterexample :
    (34 + 22 + 20 + 14 + 10 = 100) ∧
    (generate_downtime 30 (1/2) true 1 34 22 20 14 10).1.total = 9 / 10 ∧
    (generate_downtime 30 (1/2) true 1 34 22 20 14 10).2 = 1 ∧
    (generate_downtime 30 (1/2) true 1 34 22 20 14 10).1.total ≠
      (generate_downtime 30 (1/2) true 1 34 22 20 14 10).2 := by
  have hmax : max (1 : ℚ) 0 = 1 := max_eq_left (by norm_num)
  have hmin : min (1 : ℚ) ((30 : ℚ) * 5) = 1 := min_eq_left (by norm_num)
  have c34 : pyRound1 ((34 : ℚ) / 100) = ((3 : ℤ) : ℚ) / 10 :=
    pyRound1_eq _ 3 (by norm_num) (by norm_num)
  have c22 : pyRound1 ((22 : ℚ) / 100) = ((2 : ℤ) : ℚ) / 10 :=
    pyRound1_eq _ 2 (by norm_num) (by norm_num)
  have c20 : pyRound1 ((20 : ℚ) / 100) = ((2 : ℤ) : ℚ) / 10 :=
    pyRound1_eq _ 2 (by norm_num) (by norm_num)
  have c14 : pyRound1 ((14 : ℚ) / 100) = ((1 : ℤ) : ℚ) / 10 :=
    pyRound1_eq _ 1 (by norm_num) (by norm_num)
  have c10 : pyRound1 ((10 : ℚ) / 100) = ((1 : ℤ) : ℚ) / 10 :=
    pyRound1_eq _ 1 (by norm_num) (by norm_num)
  have hsum : (generate_downtime 30 (1/2) true 1 34 22 20 14 10).1.total =
      9 / 10 := by
    simp only [generate_downtime, DowntimeCauses.total, hmax, hmin,
      eq_self_iff_true, if_true, one_mul, Nat.cast_ofNat]
    rw [c34, c22, c20, c14, c10]
    norm_num
  have htot : (generate_downtime 30 (1/2) true 1 34 22 20 14 10).2 = 1 := by
    simp only [generate_downtime, hmax, hmin, eq_self_iff_true, if_true]
  refine ⟨by decide, hsum, htot, ?_⟩
  rw [hsum, htot]
  norm_num

/-- C3 amended: the five per-cause downtime minutes are one-decimal
roundings of shares `total * w_i / 100` that sum exactly to the returned
`Downtime_Total`, so their sum lies within 0.25 of `Downtime_Total`
(five causes, each rounded by at most 1/20); in the no-downtime branch
the sum equals the total exactly (both are 0). -/
theorem generate_downtime_sum_approx (meanDowntimeMinutes reliabilityFactor : ℚ)
    (hasDowntime : Bool) (gammaDraw : ℚ) (w0 w1 w2 w3 w4 : ℕ)
    (hw : w0 + w1 + w2 + w3 + w4 = 100) :
    |(generate_downtime meanDowntimeMinutes reliabilityFactor hasDowntime
        gammaDraw w0 w1 w2 w3 w4).1.total -
      (generate_downtime meanDowntimeMinutes reliabilityFactor hasDowntime
        gammaDraw w0 w1 w2 w3 w4).2| ≤ 1 / 4 ∧
    (hasDowntime = false →
      (generate_downtime meanDowntimeMinutes reliabilityFactor hasDowntime
        gammaDraw w0 w1 w2 w3 w4).1.total =
        (generate_downtime meanDowntimeMinutes reliabilityFactor hasDowntime
          gammaDraw w0 w1 w2 w3 w4).2) := by
  cases hasDowntime with
  | false =>
      constructor
      · simp [generate_downtime, DowntimeCauses.total]
      · intro _
        simp [generate_downtime, DowntimeCauses.total]
  | true =>
      refine ⟨?_, by simp⟩
      simp only [generate_downtime, DowntimeCauses.total, if_pos]
      have main : ∀ T s0 s1 s2 s3 s4 : ℚ, s0 + s1 + s2 + s3 + s4 = T →
          |pyRound1 s0 + pyRound1 s1 + pyRound1 s2 + pyRound1 s3 +
            pyRound1 s4 - T| ≤ 1 / 4 := by
        intro T s0 s1 s2 s3 s4 hs
        have e0 := abs_pyRound1_sub s0
        have e1 := abs_pyRound1_sub s1
        have e2 := abs_pyRound1_sub s2
        have e3 := abs_pyRound1_sub s3
        have e4 := abs_pyRound1_sub s4
        have key : pyRound1 s0 + pyRound1 s1 + pyRound1 s2 + pyRound1 s3 +
            pyRound1 s4 - T =
            (pyRound1 s0 - s0) + (pyRound1 s1 - s1) + (pyRound1 s2 - s2) +
              (pyRound1 s3 - s3) + (pyRound1 s4 - s4) := by
          linarith
        rw [key]
        have h01 := abs_add (pyRound1 s0 - s0) (pyRound1 s1 - s1)
        have h02 := abs_add ((pyRound1 s0 - s0) + (pyRound1 s1 - s1))
          (pyRound1 s2 - s2)
        have h03 := abs_add ((pyRound1 s0 - s0) + (pyRound1 s1 - s1) +
          (pyRound1 s2 - s2)) (pyRound1 s3 - s3)
        have h04 := abs_add ((pyRound1 s0 - s0) + (pyRound1 s1 - s1) +
          (pyRound1 s2 - s2) + (pyRound1 s3 - s3)) (pyRound1 s4 - s4)
        linarith
      set T := min (max gammaDraw 0) (meanDowntimeMinutes * 5) with hT
      apply main T
      have hq : (w0 : ℚ) + w1 + w2 + w3 + w4 = 100 := by
        exact_mod_cast congrArg (fun n : ℕ => (n : ℚ)) hw
      field_simp
      linear_combination T * hq

/-- Witness for the amended C3 at a concrete draw: total 1 minute,
multinomial sample (30, 25, 20, 15, 10). -/
theorem generate_downtime_sum_approx_witness :
    (30 + 25 + 20 + 15 + 10 = 100) ∧
    (|(generate_downtime 30 (1/2) true 1 30 25 20 15 10).1.total -
      (generate_downtime 30 (1/2) true 1 30 25 20 15 10).2| ≤ 1 / 4 ∧
    (true = false →
      (generate_downtime 30 (1/2) true 1 30 25 20 15 10).1.total =
        (generate_downtime 30 (1/2) true 1 30 25 20 15 10).2)) :=
  ⟨by decide,
   generate_downtime_sum_approx 30 (1/2) true 1 30 25 20 15 10 (by decide)⟩

/-- C4: the five per-type defect counts returned by `generate_defects`
sum exactly to the returned `Defects_Total`, given that the multinomial
sample sums to its first argument (a property `np.random.multinomial`
guarantees); in the `total_defects = 0` case all five counts are 0. -/
theorem generate_defects_counts_sum_to_total
    (productionVolume : ℕ) (baseDefectRate qualityFactor : ℚ)
    (binomDraw d0 d1 d2 d3 d4 : ℕ)
    (hmult : d0 + d1 + d2 + d3 + d4 = binomDraw) :
    (generate_defects productionVolume baseDefectRate qualityFactor
        binomDraw d0 d1 d2 d3 d4).1.total =
      (generate_defects productionVolume baseDefectRate qualityFactor
        binomDraw d0 d1 d2 d3 d4).2 ∧
    (binomDraw = 0 →
      (generate_defects productionVolume baseDefectRate qualityFactor
        binomDraw d0 d1 d2 d3 d4).1 =
        { dimensional := 0, surface := 0, assembly := 0, material := 0,
          other := 0 }) := by
  constructor
  · by_cases h : 0 < binomDraw
    · simp [generate_defects, DefectCounts.total, h, hmult]
    · simp [generate_defects, DefectCounts.total, h]
      omega
  · intro h0
    simp [generate_defects, DefectCounts.total, h0]

/-- Witness for C4 at a concrete multinomial sample of 10 defects. -/
theorem generate_defects_counts_sum_to_total_witness :
    (3 + 3 + 2 + 1 + 1 = 10) ∧
    ((generate_defects 100 (1/40) (4/5) 10 3 3 2 1 1).1.total =
        (generate_defects 100 (1/40) (4/5) 10 3 3 2 1 1).2 ∧
      (10 = 0 →
        (generate_defects 100 (1/40) (4/5) 10 3 3 2 1 1).1 =
          { dimensional := 0, surface := 0, assembly := 0, material := 0,
            other := 0 })) :=
  ⟨by decide,
   generate_defects_counts_sum_to_total 100 (1/40) (4/5) 10 3 3 2 1 1
     (by decide)⟩

/-- C5: on every table whose rows all have positive production volume,
the p-chart centre line is the total defect count over the total
production volume, the per-row limits are
`p_bar ± 3 * sqrt(p_bar * (1 - p_bar) / Production_Volume)`, and UCL and
LCL are symmetric about the centre line on every row. -/
theorem p_chart_limits_spec (df : List Row)
    (_hpos : ∀ r ∈ df, 0 < r.productionVolume) (r : Row) (_hr : r ∈ df) :
    pBar df =
      (df.map (·.defectsTotal)).sum / (df.map (·.productionVolume)).sum ∧
    (pChartLimits df r).1 =
      pBar df + 3 * Real.sqrt (pBar df * (1 - pBar df) /
        r.productionVolume) ∧
    (pChartLimits df r).2 =
      pBar df - 3 * Real.sqrt (pBar df * (1 - pBar df) /
        r.productionVolume) ∧
    (pChartLimits df r).1 - pBar df = pBar df - (pChartLimits df r).2 := by
  refine ⟨rfl, rfl, rfl, ?_⟩
  simp only [pChartLimits]
  ring

/-- Witness for C5 on a two-row table with volumes 100 and 200. -/
theorem p_chart_limits_spec_witness :
    (∀ r ∈ [rowA, rowB], 0 < r.productionVolume) ∧ rowA ∈ [rowA, rowB] ∧
    (pBar [rowA, rowB] =
      ([rowA, rowB].map (·.defectsTotal)).sum /
        ([rowA, rowB].map (·.productionVolume)).sum ∧
    (pChartLimits [rowA, rowB] rowA).1 =
      pBar [rowA, rowB] + 3 * Real.sqrt (pBar [rowA, rowB] *
        (1 - pBar [rowA, rowB]) / rowA.productionVolume) ∧
    (pChartLimits [rowA, rowB] rowA).2 =
      pBar [rowA, rowB] - 3 * Real.sqrt (pBar [rowA, rowB] *
        (1 - pBar [rowA, rowB]) / rowA.productionVolume) ∧
    (pChartLimits [rowA, rowB] rowA).1 - pBar [rowA, rowB] =
      pBar [rowA, rowB] - (pChartLimits [rowA, rowB] rowA).2) :=
  ⟨by intro r hr; fin_cases hr <;> norm_num [rowA, rowB], by simp,
   p_chart_limits_spec [rowA, rowB]
     (by intro r hr; fin_cases hr <;> norm_num [rowA, rowB]) rowA (by simp)⟩

/-- The moving-range series of an `n`-row series has `n - 1` entries
(pandas drops the leading NaN of `diff()` when averaging). -/
theorem movingRanges_length (xs : List ℝ) :
    (movingRanges xs).length = xs.length - 1 := by
  simp only [movingRanges, List.length_map, List.length_zip,
    List.length_tail]
  omega

/-- C6: on every table with at least two rows, the individuals control
limits of both I-MR charts equal the series mean plus/minus
`3 * (MR_bar / 1.128)`, where `MR_bar` is the sum of the `n - 1`
absolute first differences divided by `n - 1`. -/
theorem imr_limits_spec (df : List Row) (h2 : 2 ≤ df.length) :
    imrChartCycleTime df =
      (listMean (df.map (·.averageCycleTime)) +
        3 * ((movingRanges (df.map (·.averageCycleTime))).sum /
          ((df.length : ℝ) - 1) / 1.128),
       listMean (df.map (·.averageCycleTime)) -
        3 * ((movingRanges (df.map (·.averageCycleTime))).sum /
          ((df.length : ℝ) - 1) / 1.128)) ∧
    imrChartDowntime df =
      (listMean (df.map (·.downtimeTotal)) +
        3 * ((movingRanges (df.map (·.downtimeTotal))).sum /
          ((df.length : ℝ) - 1) / 1.128),
       listMean (df.map (·.downtimeTotal)) -
        3 * ((movingRanges (df.map (·.downtimeTotal))).sum /
          ((df.length : ℝ) - 1) / 1.128)) := by
  have key : ∀ xs : List ℝ, xs.length = df.length →
      listMean (movingRanges xs) =
        (movingRanges xs).sum / ((df.length : ℝ) - 1) := by
    intro xs hx
    unfold listMean
    rw [movingRanges_length, hx, Nat.cast_sub (by omega)]
    norm_num
  constructor
  · simp only [imrChartCycleTime]
    rw [key _ (List.length_map _ _)]
  · simp only [imrChartDowntime]
    rw [key _ (List.length_map _ _)]

/-- Witness for C6 on a two-row table. -/
theorem imr_limits_spec_witness :
    (2 ≤ [rowA, rowB].length) ∧
    (imrChartCycleTime [rowA, rowB] =
      (listMean ([rowA, rowB].map (·.averageCycleTime)) +
        3 * ((movingRanges ([rowA, rowB].map (·.averageCycleTime))).sum /
          (([rowA, rowB].length : ℝ) - 1) / 1.128),
       listMean ([rowA, rowB].map (·.averageCycleTime)) -
        3 * ((movingRanges ([rowA, rowB].map (·.averageCycleTime))).sum /
          (([rowA, rowB].length : ℝ) - 1) / 1.128)) ∧
    imrChartDowntime [rowA, rowB] =
      (listMean ([rowA, rowB].map (·.downtimeTotal)) +
        3 * ((movingRanges ([rowA, rowB].map (·.downtimeTotal))).sum /
          (([rowA, rowB].length : ℝ) - 1) / 1.128),
       listMean ([rowA, rowB].map (·.downtimeTotal)) -
        3 * ((movingRanges ([rowA, rowB].map (·.downtimeTotal))).sum /
          (([rowA, rowB].length : ℝ) - 1) / 1.128))) :=
  ⟨by simp, imr_limits_spec [rowA, rowB] (by simp)⟩

/-- C7: for every nonnegative base capacity, every efficiency factor,
downtime total and normal draw, `generate_production_volume` returns an
integer between 0 and `floor(1.2 * base_capacity)`. -/
theorem generate_production_volume_bounds (baseCapacity : ℤ)
    (efficiencyFactor downtimeTotal normalDraw : ℚ)
    (hb : 0 ≤ baseCapacity) :
    0 ≤ generate_production_volume baseCapacity efficiencyFactor
        downtimeTotal normalDraw ∧
    generate_production_volume baseCapacity efficiencyFactor
        downtimeTotal normalDraw ≤ ⌊(1.2 : ℚ) * (baseCapacity : ℚ)⌋ := by
  have hcap : (0 : ℚ) ≤ (baseCapacity : ℚ) * 1.2 :=
    mul_nonneg (by exact_mod_cast hb) (by norm_num)
  have htr : pyTruncQ ((baseCapacity : ℚ) * 1.2) =
      ⌊(1.2 : ℚ) * (baseCapacity : ℚ)⌋ := by
    unfold pyTruncQ
    rw [if_pos hcap, mul_comm]
  have h0 : (0 : ℤ) ≤ pyTruncQ ((baseCapacity : ℚ) * 1.2) := by
    unfold pyTruncQ
    rw [if_pos hcap]
    exact Int.floor_nonneg.mpr hcap
  constructor
  · exact le_max_left 0 _
  · simp only [generate_production_volume]
    rw [← htr]
    exact max_le h0 (min_le_right _ _)

/-- Witness for C7 at base capacity 500. -/
theorem generate_production_volume_bounds_witness :
    ((0 : ℤ) ≤ 500) ∧
    (0 ≤ generate_production_volume 500 (9/10) 30 480 ∧
    generate_production_volume 500 (9/10) 30 480 ≤
      ⌊(1.2 : ℚ) * ((500 : ℤ) : ℚ)⌋) :=
  ⟨by decide, generate_production_volume_bounds 500 (9/10) 30 480 (by decide)⟩

/-- Rounding an integer (ties to even) returns that integer. -/
theorem roundTiesEvenR_intCast (n : ℤ) : roundTiesEvenR (n : ℝ) = n := by
  unfold roundTiesEvenR
  have h : ¬((n : ℝ) - ((⌊(n : ℝ)⌋ : ℤ) : ℝ) = 1 / 2) := by
    rw [Int.floor_intCast]
    simp
  rw [if_neg h, round_intCast]

/-- Round-half-to-even never goes below an integer lower bound. -/
theorem le_roundTiesEvenR (y : ℝ) (n : ℤ) (h : (n : ℝ) ≤ y) :
    n ≤ roundTiesEvenR y := by
  unfold roundTiesEvenR
  split_ifs with h1 h2
  · exact Int.le_floor.mpr h
  · have := Int.le_floor.mpr h
    omega
  · rw [round_eq]
    exact Int.le_floor.mpr (by linarith)

/-- Round-half-to-even never exceeds an integer upper bound. -/
theorem roundTiesEvenR_le (y : ℝ) (n : ℤ) (h : y ≤ (n : ℝ)) :
    roundTiesEvenR y ≤ n := by
  unfold roundTiesEvenR
  split_ifs with h1 h2
  · by_contra hcon
    push_neg at hcon
    have hle : ((n + 1 : ℤ) : ℝ) ≤ y := by
      calc ((n + 1 : ℤ) : ℝ) ≤ ((⌊y⌋ : ℤ) : ℝ) := by exact_mod_cast hcon
        _ ≤ y := Int.floor_le y
    push_cast at hle
    linarith
  · by_contra hcon
    push_neg at hcon
    have hle : (n : ℝ) ≤ ((⌊y⌋ : ℤ) : ℝ) := by exact_mod_cast (by omega : n ≤ ⌊y⌋)
    linarith [h1]
  · rw [round_eq]
    by_contra hcon
    push_neg at hcon
    have hle : ((n + 1 : ℤ) : ℝ) ≤ y + 1 / 2 :=
      le_trans (by exact_mod_cast hcon) (Int.floor_le _)
    push_cast at hle
    linarith

/-- Two-decimal rounding keeps a value of `[0, 6]` inside `[0, 6]`. -/
theorem pyRound2_mem (x : ℝ) (h0 : 0 ≤ x) (h6 : x ≤ 6) :
    0 ≤ pyRound2 x ∧ pyRound2 x ≤ 6 := by
  have l1 : (0 : ℤ) ≤ roundTiesEvenR (x * 100) :=
    le_roundTiesEvenR _ 0 (by push_cast; linarith)
  have l2 : roundTiesEvenR (x * 100) ≤ 600 :=
    roundTiesEvenR_le _ 600 (by push_cast; linarith)
  unfold pyRound2
  constructor
  · apply div_nonneg _ (by norm_num : (0 : ℝ) ≤ 100)
    exact_mod_cast l1
  · rw [div_le_iff₀ (by norm_num : (0 : ℝ) < 100)]
    have hc : ((roundTiesEvenR (x * 100) : ℤ) : ℝ) ≤ ((600 : ℤ) : ℝ) := by
      exact_mod_cast l2
    push_cast at hc
    linarith

/-- Two-decimal rounding of an integer returns that integer. -/
theorem pyRound2_intCast (n : ℤ) : pyRound2 (n : ℝ) = n := by
  unfold pyRound2
  have h : (n : ℝ) * 100 = ((n * 100 : ℤ) : ℝ) := by push_cast; ring
  rw [h, roundTiesEvenR_intCast]
  push_cast
  field_simp

/-- Four-decimal rounding of an integer returns that integer. -/
theorem pyRound4_intCast (n : ℤ) : pyRound4 (n : ℝ) = n := by
  unfold pyRound4
  have h : (n : ℝ) * 10000 = ((n * 10000 : ℤ) : ℝ) := by push_cast; ring
  rw [h, roundTiesEvenR_intCast]
  push_cast
  field_simp

/-- C8: `calculate_quality_metrics` never divides by zero: when the
production volume is not positive the defect rate is taken to be 0, and
the function returns FPY = 1, DPMO = 0, RTY = 1 and Sigma_Level = 6. -/
theorem calculate_quality_metrics_nonpos_volume
    (defectsTotal productionVolume : ℝ) (hv : ¬ 0 < productionVolume) :
    defect_rate defectsTotal productionVolume = 0 ∧
    calculate_quality_metrics defectsTotal productionVolume =
      { fpy := 1, dpmo := 0, rty := 1, sigmaLevel := 6 } := by
  have hrate : defect_rate defectsTotal productionVolume = 0 := by
    unfold defect_rate
    rw [if_neg hv]
  have h4 : pyRound4 (1 : ℝ) = 1 := by
    have := pyRound4_intCast 1
    simpa using this
  have h2 : pyRound2 (6 : ℝ) = 6 := by
    have := pyRound2_intCast 6
    simpa using this
  have htr : pyTruncR 0 = 0 := by
    unfold pyTruncR
    rw [if_pos le_rfl, Int.floor_zero]
  refine ⟨hrate, ?_⟩
  simp [calculate_quality_metrics, hrate, h4, h2, htr, Real.one_rpow]

/-- Witness for C8 at defect count 3 and production volume 0. -/
theorem calculate_quality_metrics_nonpos_volume_witness :
    (¬ (0 : ℝ) < 0) ∧
    (defect_rate 3 0 = 0 ∧
    calculate_quality_metrics 3 0 =
      { fpy := 1, dpmo := 0, rty := 1, sigmaLevel := 6 }) :=
  ⟨by norm_num, calculate_quality_metrics_nonpos_volume 3 0 (by norm_num)⟩

/-- C9 counterexample: at 1 defect in 10 units the defect rate is 0.1,
which is in the open branch, but the returned Sigma_Level is the
two-decimal rounding 4.26 of the clamped value
`0.8406 - 3.42 * log10(0.1) = 4.2606`, not the clamped value itself. -/
theorem sigma_level_rounding_counterexample :
    defect_rate 1 10 ≠ 0 ∧ defect_rate 1 10 < 1 ∧
    (calculate_quality_metrics 1 10).sigmaLevel = 4.26 ∧
    max 0 (min 6 (0.8406 - 3.42 * Real.logb 10 (defect_rate 1 10))) =
      4.2606 ∧
    (calculate_quality_metrics 1 10).sigmaLevel ≠
      max 0 (min 6 (0.8406 - 3.42 * Real.logb 10 (defect_rate 1 10))) := by
  have hrate : defect_rate 1 10 = 1 / 10 := by
    unfold defect_rate
    rw [if_pos (by norm_num : (0 : ℝ) < 10)]
  have hlog : Real.logb 10 ((1 : ℝ) / 10) = -1 := by
    rw [one_div, Real.logb_inv, Real.logb_self_eq_one (by norm_num)]
  have hval : 0.8406 - 3.42 * Real.logb 10 (defect_rate 1 10) =
      (4.2606 : ℝ) := by
    rw [hrate, hlog]
    norm_num
  have hclamp : max 0 (min 6 (0.8406 - 3.42 *
      Real.logb 10 (defect_rate 1 10))) = (4.2606 : ℝ) := by
    rw [hval, min_eq_right (by norm_num), max_eq_right (by norm_num)]
  have hS : (calculate_quality_metrics 1 10).sigmaLevel =
      pyRound2 (if defect_rate 1 10 = 0 then 6 else
        if 1 ≤ defect_rate 1 10 then 0 else
          max 0 (min 6 (0.8406 - 3.42 *
            Real.logb 10 (defect_rate 1 10)))) := rfl
  have hS2 : (calculate_quality_metrics 1 10).sigmaLevel =
      pyRound2 (4.2606 : ℝ) := by
    rw [hS, if_neg (by rw [hrate]; norm_num),
      if_neg (by rw [hrate]; norm_num), hclamp]
  have hp : pyRound2 (4.2606 : ℝ) = 4.26 := by
    unfold pyRound2
    have hm : (4.2606 : ℝ) * 100 = 426.06 := by norm_num
    rw [hm]
    have hf : ⌊(426.06 : ℝ)⌋ = 426 := by
      rw [Int.floor_eq_iff]
      constructor <;> norm_num
    unfold roundTiesEvenR
    rw [hf, if_neg (by norm_num), round_eq]
    have hf2 : ⌊(426.06 : ℝ) + 1 / 2⌋ = 426 := by
      rw [Int.floor_eq_iff]
      constructor <;> norm_num
    rw [hf2]
    norm_num
  refine ⟨by rw [hrate]; norm_num, by rw [hrate]; norm_num, ?_, hclamp, ?_⟩
  · rw [hS2, hp]
  · rw [hS2, hp, hclamp]
    norm_num

/-- C9 amended: for every nonnegative defect count and production
volume, the returned Sigma_Level lies in `[0, 6]`; it equals 6 when the
defect rate is 0, equals 0 when the defect rate is at least 1, and
otherwise equals `0.8406 - 3.42 * log10(rate)` clamped to `[0, 6]` and
then rounded to two decimals (ties to even), as the source's final
`round(sigma_level, 2)` dictates. -/
theorem sigma_level_range_spec (defectsTotal productionVolume : ℝ)
    (_hd : 0 ≤ defectsTotal) (_hv : 0 ≤ productionVolume) :
    (0 ≤ (calculate_quality_metrics defectsTotal productionVolume).sigmaLevel ∧
      (calculate_quality_metrics defectsTotal productionVolume).sigmaLevel ≤ 6) ∧
    (defect_rate defectsTotal productionVolume = 0 →
      (calculate_quality_metrics defectsTotal productionVolume).sigmaLevel = 6) ∧
    (1 ≤ defect_rate defectsTotal productionVolume →
      (calculate_quality_metrics defectsTotal productionVolume).sigmaLevel = 0) ∧
    (defect_rate defectsTotal productionVolume ≠ 0 →
      defect_rate defectsTotal productionVolume < 1 →
      (calculate_quality_metrics defectsTotal productionVolume).sigmaLevel =
        pyRound2 (max 0 (min 6 (0.8406 - 3.42 *
          Real.logb 10 (defect_rate defectsTotal productionVolume))))) := by
  have hS : (calculate_quality_metrics defectsTotal productionVolume).sigmaLevel =
      pyRound2 (if defect_rate defectsTotal productionVolume = 0 then 6 else
        if 1 ≤ defect_rate defectsTotal productionVolume then 0 else
          max 0 (min 6 (0.8406 - 3.42 *
            Real.logb 10 (defect_rate defectsTotal productionVolume)))) := rfl
  have hin : 0 ≤ (if defect_rate defectsTotal productionVolume = 0 then (6 : ℝ) else
        if 1 ≤ defect_rate defectsTotal productionVolume then 0 else
          max 0 (min 6 (0.8406 - 3.42 *
            Real.logb 10 (defect_rate defectsTotal productionVolume)))) ∧
      (if defect_rate defectsTotal productionVolume = 0 then (6 : ℝ) else
        if 1 ≤ defect_rate defectsTotal productionVolume then 0 else
          max 0 (min 6 (0.8406 - 3.42 *
            Real.logb 10 (defect_rate defectsTotal productionVolume)))) ≤ 6 := by
    split_ifs with h1 h2
    · norm_num
    · norm_num
    · exact ⟨le_max_left 0 _, max_le (by norm_num) (min_le_left _ _)⟩
  refine ⟨?_, ?_, ?_, ?_⟩
  · rw [hS]
    exact pyRound2_mem _ hin.1 hin.2
  · intro h0
    rw [hS, if_pos h0]
    have := pyRound2_intCast 6
    simpa using this
  · intro h1
    have hne : defect_rate defectsTotal productionVolume ≠ 0 := by
      intro he
      rw [he] at h1
      linarith
    rw [hS, if_neg hne, if_pos h1]
    have := pyRound2_intCast 0
    simpa using this
  · intro hne hlt
    rw [hS, if_neg hne, if_neg (not_le.mpr hlt)]

/-- Witness for the amended C9 at defect count 0 and production
volume 0. -/
theorem sigma_level_range_spec_witness :
    ((0 : ℝ) ≤ 0 ∧ (0 : ℝ) ≤ 0) ∧
    ((0 ≤ (calculate_quality_metrics 0 0).sigmaLevel ∧
      (calculate_quality_metrics 0 0).sigmaLevel ≤ 6) ∧
    (defect_rate 0 0 = 0 →
      (calculate_quality_metrics 0 0).sigmaLevel = 6) ∧
    (1 ≤ defect_rate 0 0 →
      (calculate_quality_metrics 0 0).sigmaLevel = 0) ∧
    (defect_rate 0 0 ≠ 0 → defect_rate 0 0 < 1 →
      (calculate_quality_metrics 0 0).sigmaLevel =
        pyRound2 (max 0 (min 6 (0.8406 - 3.42 *
          Real.logb 10 (defect_rate 0 0)))))) :=
  ⟨⟨le_refl 0, le_refl 0⟩,
   sigma_level_range_spec 0 0 (le_refl 0) (le_refl 0)⟩

end SPCPortfolio
